import Mathlib

/-!
# Verification of the symbolic container-value subsystem
  (`torch/_dynamo/variables/dicts.py`)

Shallow embedding of the dict-modelling variable trackers:
`ConstDictVariable` (with its inner `_HashableTracker`), `DefaultDictVariable`,
`SetVariable`, and the record adapters `DataClassVariable` /
`CustomizedDictVariable`.

Modelling conventions:
* A `VariableTracker` relevant to dict keys/values is the inductive `VT`.
  Opaque host objects (fake tensors, enum members, builtin functions,
  method wrappers) are identified by a `Nat` object id; identity of runtime
  objects is equality of ids.
* Python exceptions are the error type `PyErr`; fallthrough to
  `super().call_method` (a graph break via `unimplemented`) is
  `PyErr.unimplemented`.
* The copy-on-write protocol `tx.replace_all(old, new)` is recorded in the
  result structure as `replaced = some (old, new)`; a `none` means the
  operation did not call the reference-substitution service.
* The dict protocol is modelled twice.  The *intended-equality* layer
  (`keyEq`, `setPair`, `popPair`, `containsKey`, `lookupKey`,
  `dictCallMethod`, ...) compares keys by the projection equality
  `_eq_impl` was meant to implement; it over-approximates the operations
  that succeed in the program and serves the hashable-key invariant, whose
  conclusion is unaffected by a crashed (hence non-mutating) operation.
  The *faithful* layer (`htEqProbe`, `setPairE`, `popPairE`,
  `containsKeyE`, `lookupKeyE`, `dictCallMethodE`, ...) propagates the
  `NameError` that the source's broken tuple `__eq__` raises, and is used
  to evaluate the operations at the failing inputs of the defect claims.
-/

namespace DynamoDicts

/-- A concrete Python value as produced by the `underlying_value` projection of
`_HashableTracker` (`as_python_constant` for constants, the fake
`example_value` for tensors, tuples recursively, host objects otherwise). -/
inductive PyVal where
  | vint (n : Int)
  | vbool (b : Bool)
  | vstr (s : String)
  | vnone
  | fake (objId : Nat)
  | obj (objId : Nat)
  | vtuple (xs : List PyVal)

/-- Tag standing for the CPython `type()` of a projected value, used by the
`type(a) != type(b)` test in `_HashableTracker._eq_impl`. -/
def ptype : PyVal → Nat
  | .vint _ => 0
  | .vbool _ => 1
  | .vstr _ => 2
  | .vnone => 3
  | .fake _ => 4
  | .obj _ => 5
  | .vtuple _ => 6

mutual

/-- The equality relation on projections that `_HashableTracker._eq_impl` is
intended to implement (and does implement on every non-tuple input):
mismatched dynamic kinds are unequal, fake tensors compare by object identity,
tuples compare pointwise, plain constants compare by value. -/
def pyValEq : PyVal → PyVal → Bool
  | .vint a, .vint b => a == b
  | .vbool a, .vbool b => a == b
  | .vstr a, .vstr b => a == b
  | .vnone, .vnone => true
  | .fake a, .fake b => a == b
  | .obj a, .obj b => a == b
  | .vtuple xs, .vtuple ys => pyValEqList xs ys
  | _, _ => false

def pyValEqList : List PyVal → List PyVal → Bool
  | [], [] => true
  | x :: xs, y :: ys => pyValEq x y && pyValEqList xs ys
  | _, _ => false

end

/-- Equality on non-tuple projections: fake tensors by identity (`is_fake(a)`
then `a is b`), everything else by Python `==` of same-typed constants. -/
def pyEqAtom : PyVal → PyVal → Bool
  | .vint a, .vint b => a == b
  | .vbool a, .vbool b => a == b
  | .vstr a, .vstr b => a == b
  | .vnone, .vnone => true
  | .fake a, .fake b => a == b
  | .obj a, .obj b => a == b
  | _, _ => false

/-- Python exceptions / trace aborts raised by the subsystem. -/
inductive PyErr where
  | keyError
  | nameError
  | assertionError
  | runtimeError
  | indexError
  | unimplemented

/-- Model of `ConstDictVariable._HashableTracker._eq_impl`, translated faithfully.
The tuple branch is
`len(a) == len(b) and all(_eq_impl(u, v) for u, v in zip(a, b))`:
the recursive reference `_eq_impl` is an unqualified name inside a
staticmethod, which is not in scope at call time, so the generator body
raises `NameError` as soon as it is evaluated — i.e. exactly when the two
tuples have equal, non-zero length. (Equal empty tuples never evaluate the
generator body and yield `True`; unequal lengths short-circuit to `False`.) -/
def eq_impl (a b : PyVal) : Except PyErr Bool :=
  if ptype a != ptype b then .ok false
  else
    match a, b with
    | .vtuple xs, .vtuple ys =>
        if xs.length == ys.length then
          if xs.length == 0 then .ok true
          else .error .nameError
        else .ok false
    | x, y => .ok (pyEqAtom x y)

/-- The `VariableTracker`s that can appear as dict keys/values in this file.
`tensor i` is a `TensorVariable` whose proxy has a fake `example_value`
(object id `i`); `tensorNoExample` is one without (not hashable);
`listVT` stands for a non-hashable variable such as a `ListVariable`. -/
inductive VT where
  | const (v : PyVal)
  | tensor (fakeId : Nat)
  | tensorNoExample
  | tup (xs : List VT)
  | enumV (memberId : Nat)
  | builtin (fnId : Nat)
  | methodWrapper (objId : Nat)
  | symnode (n : Int)
  | listVT (xs : List VT)

mutual

/-- Model of `is_hashable(x)`: tensors are hashable iff they carry an `example_value`;
tuples iff all items are; otherwise hashable iff the tracker is a builtin,
sym-node, constant, enum or method-wrapper variable. -/
def is_hashable : VT → Bool
  | .const _ => true
  | .tensor _ => true
  | .tensorNoExample => false
  | .tup xs => is_hashableList xs
  | .enumV _ => true
  | .builtin _ => true
  | .methodWrapper _ => true
  | .symnode _ => true
  | .listVT _ => false

def is_hashableList : List VT → Bool
  | [] => true
  | x :: xs => is_hashable x && is_hashableList xs

end

mutual

/-- Model of `_HashableTracker.underlying_value`: tensors project to their fake
`example_value`, tuples recursively, everything else to
`as_python_constant()`.  (The unhashable trackers never reach this projection
because the wrapper's constructor asserts `is_hashable`; they are mapped to a
junk `vnone`.) -/
def underlying : VT → PyVal
  | .const v => v
  | .tensor i => .fake i
  | .tensorNoExample => .vnone
  | .tup xs => .vtuple (underlyingList xs)
  | .enumV i => .obj i
  | .builtin i => .obj i
  | .methodWrapper i => .obj i
  | .symnode n => .vint n
  | .listVT _ => .vnone

def underlyingList : List VT → List PyVal
  | [] => []
  | x :: xs => underlying x :: underlyingList xs

end

/-- Model of `specialize_symnode`: `_HashableTracker.__init__` specializes
`SymNodeVariable` keys to their constant before storing them. -/
def specialize_symnode : VT → VT
  | .symnode n => .const (.vint n)
  | v => v

/-- The key actually stored by `_HashableTracker(vt)`: the specialized vt. -/
def wrapKey (k : VT) : VT := specialize_symnode k

/-- Model of `_HashableTracker.__eq__` between two wrappers, faithful to the source
(including the broken tuple recursion, see `eq_impl`). -/
def htEq (a b : VT) : Except PyErr Bool := eq_impl (underlying a) (underlying b)

/-- Equality of stored keys under the *intended* projection semantics: the
relation `_eq_impl` implements on every non-tuple projection and was meant
to implement on tuples.  This is not what the dict protocol of the source
actually computes on tuple keys — there the broken `__eq__` raises
`NameError` (claim C2); the faithful comparison is `htEqProbe` below.
`keyEq`-based operations over-approximate the program's successful
operations and serve only the hashable-key invariant. -/
def keyEq (a b : VT) : Bool := pyValEq (underlying a) (underlying b)

/-! ## The associative container model (`ConstDictVariable`) -/

/-- A `ConstDictVariable` snapshot: the insertion-ordered map
`self.items` (keys are the specialized `vt`s held by the
`_HashableTracker` wrappers), the `user_cls` tag, and whether the variable
has a `mutable_local` (i.e. is in a mutable lifecycle state). -/
structure ConstDict where
  items : List (VT × VT)
  user_cls : String
  mutable_local : Bool

/-- Assignment `self.items[k] = v` on the ordered map under the intended key
equality (faithful counterpart: `setPairE`): an entry whose stored key
equals `k` keeps its position (and its original key object) and gets the
new value; otherwise the new binding is appended at the end. -/
def setPair : List (VT × VT) → VT → VT → List (VT × VT)
  | [], k, v => [(k, v)]
  | (k0, v0) :: rest, k, v =>
      if keyEq k0 k then (k0, v) :: rest
      else (k0, v0) :: setPair rest k v

/-- Removal `self.items.pop(k)` on the ordered map under the intended key
equality (faithful counterpart: `popPairE`): remove the entry whose stored
key equals `k`, returning the bound value and the remaining entries;
`none` when the key is absent (Python raises `KeyError` there). -/
def popPair : List (VT × VT) → VT → Option (VT × List (VT × VT))
  | [], _ => none
  | (k0, v0) :: rest, k =>
      if keyEq k0 k then some (v0, rest)
      else (popPair rest k).map (fun r => (r.1, (k0, v0) :: r.2))

/-- Membership `k in self.items` under the intended key equality (faithful
counterpart: `containsKeyE`). -/
def containsKey (l : List (VT × VT)) (k : VT) : Bool :=
  l.any (fun kv => keyEq kv.1 k)

/-- Lookup of `self.items[k]` under the intended key equality (faithful
counterpart: `lookupKeyE`). -/
def lookupKey : List (VT × VT) → VT → Option VT
  | [], _ => none
  | (k0, v0) :: rest, k => if keyEq k0 k then some v0 else lookupKey rest k

/-- What `call_method` returns: either a plain variable, or the container
variable produced by `tx.replace_all`. -/
inductive RetVal where
  | v (x : VT)
  | d (x : ConstDict)

/-- A `call_method` outcome: the returned variable plus the
`tx.replace_all(old, new)` invocation, when one happened.  The first
component of `replaced` is the original snapshot (handed to the
substitution service untouched), the second the freshly built snapshot. -/
structure CallResult where
  ret : RetVal
  replaced : Option (ConstDict × ConstDict)

/-- Model of `ConstDictVariable.getitem_const`: wrap the argument (the wrapper's
constructor asserts hashability) and index `self.items`; a miss raises
`KeyError`. -/
def getitem_const (d : ConstDict) (arg : VT) : Except PyErr CallResult :=
  if is_hashable arg then
    match lookupKey d.items (wrapKey arg) with
    | some v => .ok ⟨.v v, none⟩
    | none => .error .keyError
  else .error .assertionError

/-- Model of `ConstDictVariable.call_method`, restricted to the branches the verified
claims exercise: `__getitem__`, `__len__`, `__setitem__`, `pop` (both the
absent-with-default branch and the mutating branch, in source order) and
`__contains__`.  The `items`/`keys`/`values` view branches are not needed
here; the `update` branch requires its argument to be a `ConstDictVariable`
(never one of our `VT` arguments) and is modelled by `dictUpdate`.  The final
`else` falls through to `super().call_method`, i.e. a graph break
(`unimplemented`).  Key comparisons use the intended equality; the faithful
counterpart propagating the broken `__eq__` is `dictCallMethodE`. -/
def dictCallMethod (d : ConstDict) (name : String) (args : List VT) :
    Except PyErr CallResult :=
  if name = "__getitem__" then
    match args with
    | a :: _ => getitem_const d a
    | [] => .error .indexError
  else if name = "__len__" then
    match args with
    | [] => .ok ⟨.v (.const (.vint d.items.length)), none⟩
    | _ => .error .assertionError
  else if name = "__setitem__" then
    -- `name == "__setitem__" and arg_hashable and self.mutable_local`
    match args with
    | [k, v] =>
        if is_hashable k && d.mutable_local then
          let items' := setPair d.items (wrapKey k) v
          .ok ⟨.d { d with items := items' }, some (d, { d with items := items' })⟩
        else .error .unimplemented
    | k :: _ =>
        if is_hashable k && d.mutable_local then .error .assertionError
        else .error .unimplemented
    | [] => .error .unimplemented
  else if name = "pop" then
    match args with
    | [k] =>
        -- the absent-with-default branch needs `len(args) == 2`: skipped
        if is_hashable k && d.mutable_local then
          match popPair d.items (wrapKey k) with
          | some r => .ok ⟨.v r.1, some (d, { d with items := r.2 })⟩
          | none => .error .keyError
        else .error .unimplemented
    | [k, dflt] =>
        if is_hashable k && !containsKey d.items (wrapKey k) then
          -- missing item, return the default value; no mutation
          .ok ⟨.v dflt, none⟩
        else if is_hashable k && d.mutable_local then
          match popPair d.items (wrapKey k) with
          | some r => .ok ⟨.v r.1, some (d, { d with items := r.2 })⟩
          | none => .error .keyError
        else .error .unimplemented
    | _ => .error .unimplemented
  else if name = "__contains__" then
    match args with
    | k :: _ =>
        .ok ⟨.v (.const (.vbool (is_hashable k && containsKey d.items (wrapKey k)))),
             none⟩
    | [] => .error .unimplemented
  else .error .unimplemented

/-- The `update` branch of `ConstDictVariable.call_method`: its guard needs
`args[0]` to be a `ConstDictVariable` and `self.mutable_local`; it copies
`self.items`, runs `OrderedDict.update` with the other dict's (already
wrapped) entries — sequential `__setitem__`s in the other dict's order — and
substitutes the new snapshot. -/
def dictUpdate (d other : ConstDict) : Except PyErr CallResult :=
  if d.mutable_local then
    let items' := other.items.foldl (fun acc kv => setPair acc kv.1 kv.2) d.items
    .ok ⟨.d { d with items := items' }, some (d, { d with items := items' })⟩
  else .error .unimplemented

/-- Model of `ConstDictVariable.unpack_var_sequence`: iteration yields the stored
keys' `vt`s in map order. -/
def unpack_var_sequence (d : ConstDict) : List VT :=
  d.items.map Prod.fst

/-- Model of `ConstDictVariable.__init__`: every key is wrapped by `make_hashable`,
whose `_HashableTracker.__init__` specializes sym-nodes and asserts
`is_hashable`; a non-hashable key aborts construction (`AssertionError`). -/
def mkConstDict (l : List (VT × VT)) (cls : String) (mtl : Bool) :
    Except PyErr ConstDict :=
  if l.all (fun kv => is_hashable (wrapKey kv.1)) then
    .ok ⟨l.map (fun kv => (wrapKey kv.1, kv.2)), cls, mtl⟩
  else .error .assertionError

/-- The hashable-key invariant: every stored key of a container snapshot is
hashable-compatible. -/
def allKeysHashable (d : ConstDict) : Bool :=
  d.items.all (fun kv => is_hashable kv.1)

/-! ## `DefaultDictVariable` -/

/-- A `DefaultDictVariable`: the underlying ordered map plus the optional
`default_factory` (the factory itself is an external callable; only its
presence matters to the container's control flow, its product is supplied by
the interpreter when invoked). -/
structure DefaultDict where
  toDict : ConstDict
  hasFactory : Bool

/-- Outcome of `DefaultDictVariable.call_method("__getitem__", ...)`: the
returned variable, the `tx.replace_all(old, new)` invocation if any, and how
many times `default_factory.call_function` ran. -/
structure DDResult where
  ret : VT
  replaced : Option (DefaultDict × DefaultDict)
  factoryCalls : Nat

/-- The `__getitem__` branch of `DefaultDictVariable.call_method`:
`k = Hashable(args[0])` (assertion inside the wrapper); if the key is
present, `getitem_const` returns the bound value; otherwise with no factory
it raises `KeyError`, and with a factory it copies the map, calls the
factory once (its fresh product is the parameter `freshVal`), binds the key
to the product, substitutes the new snapshot and returns the product.  Key
comparisons use the intended equality; the faithful counterpart is
`ddGetItemE`. -/
def ddGetItem (dd : DefaultDict) (k : VT) (freshVal : VT) :
    Except PyErr DDResult :=
  if is_hashable k then
    match lookupKey dd.toDict.items (wrapKey k) with
    | some v => .ok ⟨v, none, 0⟩
    | none =>
        if dd.hasFactory then
          let items' := setPair dd.toDict.items (wrapKey k) freshVal
          .ok ⟨freshVal,
               some (dd, { dd with toDict := { dd.toDict with items := items' } }),
               1⟩
        else .error .keyError
  else .error .assertionError

/-! ## `SetVariable` -/

/-- Model of `SetVariable._default_value()`: the `ConstantVariable(None)` sentinel
stored in every value slot. -/
def set_default_value : VT := .const .vnone

/-- Model of `SetVariable.getitem_const`: raises
`RuntimeError("Illegal to getitem on a set")` unconditionally. -/
def setGetitemConst (_arg : VT) : Except PyErr CallResult :=
  .error .runtimeError

/-- Model of `SetVariable.call_method`: `add` is rewritten to a dict `__setitem__`
with the sentinel value; argumentless `pop` picks one element of
`set(self.items.keys())` (unordered choice, modelled as the first entry;
`set().pop()` on an empty set raises `KeyError`), removes it through the
dict `pop`, and returns the element's `vt` — not the dict `pop`'s own
result; everything else goes to the dict implementation, except that the
dict's `__getitem__` dispatches to the overridden `getitem_const`, which
raises.  Faithful counterpart: `setCallMethodE`. -/
def setCallMethod (s : ConstDict) (name : String) (args : List VT) :
    Except PyErr CallResult :=
  if name = "add" then
    match args with
    | [x] => dictCallMethod s "__setitem__" [x, set_default_value]
    | _ => .error .assertionError
  else if name = "pop" then
    match args with
    | [] =>
        match s.items.head? with
        | none => .error .keyError
        | some kv =>
            match dictCallMethod s "pop" [kv.1] with
            | .ok r => .ok ⟨.v kv.1, r.replaced⟩
            | .error e => .error e
    | _ => .error .assertionError
  else if name = "__getitem__" then
    match args with
    | a :: _ => setGetitemConst a
    | [] => .error .indexError
  else dictCallMethod s name args

/-! ## Record adapters: `reconstruct` codegen -/

/-- The instruction vocabulary the reconstruction protocol emits. -/
inductive Instr where
  | loadConst (cls : String)
  | loadVal (v : VT)
  | buildMap (n : Nat)
  | buildSet (n : Nat)
  | callFunction (argc : Nat)
  | callFunctionKw (argc : Nat) (kwnames : List String)
  | loadModule (m : String)
  | loadAttr (a : String)
  | loadMethod (m : String)
  | callMethodI (argc : Nat)

/-- A positional construction step: `BUILD_MAP` or a plain (non-keyword)
function call — the shape `reconstruct` of the record adapters must never
emit. -/
def isPositionalBuild : Instr → Bool
  | .buildMap _ => true
  | .callFunction _ => true
  | _ => false

/-- Model of `keys_as_python_constant` applied to a record-adapter key: the keys of
both adapters are wrapped strings (`ConstantVariable.create(key)` over the
field name), so `as_python_constant` yields the field-name string. -/
def keyStr : VT → String
  | .const (.vstr s) => s
  | _ => ""

/-- Model of `ConstDictVariable.reconstruct`: load `collections.OrderedDict` when
needed, push each key and value in order, `BUILD_MAP`, and convert through a
plain call for the non-`dict` host class — the positional-build-then-convert
shape the record adapters avoid. -/
def dictReconstruct (d : ConstDict) : List Instr :=
  if d.user_cls = "OrderedDict" then
    [Instr.loadModule "collections", Instr.loadAttr "OrderedDict"] ++
    (d.items.map (fun kv => [Instr.loadVal kv.1, Instr.loadVal kv.2])).flatten ++
    [Instr.buildMap d.items.length, Instr.callFunction 1]
  else
    (d.items.map (fun kv => [Instr.loadVal kv.1, Instr.loadVal kv.2])).flatten ++
    [Instr.buildMap d.items.length]

/-- Model of `DataClassVariable.reconstruct`: load the record type
(`_create_load_const(self.user_cls)`), push the stored field values in
declared order (`codegen.foreach(d.values())`), then a keyword call
(`create_call_function_kw`) whose keyword names are the stored field
names. -/
def dataClassReconstruct (d : ConstDict) : List Instr :=
  Instr.loadConst d.user_cls ::
  (d.items.map (fun kv => Instr.loadVal kv.2) ++
   [Instr.callFunctionKw d.items.length (d.items.map (fun kv => keyStr kv.1))])

/-- Model of `CustomizedDictVariable.reconstruct`: textually the same emission as
`DataClassVariable.reconstruct`. -/
def customizedDictReconstruct (d : ConstDict) : List Instr :=
  Instr.loadConst d.user_cls ::
  (d.items.map (fun kv => Instr.loadVal kv.2) ++
   [Instr.callFunctionKw d.items.length (d.items.map (fun kv => keyStr kv.1))])

/-! ## `ConstDictVariable.__contains__` (the dunder, used by `in`) -/

/-- A raw host-Python object handed to the dunder `__contains__`:
`rint`/`rstr` are literal constants, `rtensor` a real tensor (a hashable
python var that is not a literal), `rlist` a raw list (neither literal nor
hashable). -/
inductive RawObj where
  | rint (n : Int)
  | rstr (s : String)
  | rtensor (objId : Nat)
  | rlist

/-- Model of `ConstantVariable.is_literal` on a raw object. -/
def rawIsLiteral : RawObj → Bool
  | .rint _ => true
  | .rstr _ => true
  | .rtensor _ => false
  | .rlist => false

/-- Model of `is_hashable_python_var` on a raw object: literals, tensors, enums,
method wrappers, builtin callables and tuples of such are hashable python
vars; a list is not. -/
def is_hashable_python_var : RawObj → Bool
  | .rint _ => true
  | .rstr _ => true
  | .rtensor _ => true
  | .rlist => false

/-- Model of `ConstantVariable.create` on a literal raw object. -/
def rawToConst : RawObj → VT
  | .rint n => .const (.vint n)
  | .rstr s => .const (.vstr s)
  | .rtensor i => .tensor i
  | .rlist => .listVT []

/-- A probe object for `obj in dict_variable`: either a raw host object or
an already wrapped `VariableTracker`. -/
inductive Probe where
  | raw (x : RawObj)
  | vtp (x : VT)

/-- Model of `ConstDictVariable.__contains__(obj)`, translated faithfully.  A literal
is wrapped into a `ConstantVariable` first; a `VariableTracker` is wrapped
into a `_HashableTracker` (whose constructor asserts hashability) and
tested for membership.  Any other object reaches
`assert not is_hashable_python_var(x)` — but the name `x` is not defined in
the method (its parameter is `obj`), so this line raises `NameError`
instead of asserting and returning `False`. -/
def dunderContains (d : ConstDict) (obj : Probe) : Except PyErr Bool :=
  match obj with
  | .raw r =>
      if rawIsLiteral r then
        let v := rawToConst r
        if is_hashable v then .ok (containsKey d.items (wrapKey v))
        else .error .assertionError
      else .error .nameError
  | .vtp v =>
      if is_hashable v then .ok (containsKey d.items (wrapKey v))
      else .error .assertionError

/-! ## The faithful (error-propagating) dict-protocol layer

The definitions above compare keys via `keyEq`, the *intended* projection
equality; they over-approximate the operations that succeed in the program
and are used for the invariant claim, whose conclusion is insensitive to
the collapsed error path.  The definitions below are the faithful
counterparts: every dict-protocol key comparison goes through the source's
`_HashableTracker.__eq__` (`htEq`), whose tuple branch raises `NameError`
(see `eq_impl`), and the error propagates out of the operation exactly as
the exception does. -/

/-- Model of one dict-protocol key comparison between a stored
`_HashableTracker` and a freshly built probe wrapper.  CPython consults
`__eq__` only when the probe's hash matches the stored key's hash (the
identity fast path never fires: `call_method` always builds a fresh
wrapper object), and equal projections always hash equal, so the
comparison against an intended-equal stored key is always reached and
behaves as `htEq` — raising `NameError` on equal-length non-empty tuple
projections.  Distinct projections are modelled as hash-distinct, i.e. no
`__eq__` call; this under-approximates the error, since a hash collision
between unequal keys (e.g. the tuples built from `-1` and `-2`) can also
reach the broken `__eq__` in the real program. -/
def htEqProbe (stored probe : VT) : Except PyErr Bool :=
  if pyValEq (underlying stored) (underlying probe) then htEq stored probe
  else .ok false

/-- Faithful model of `self.items[k]` as a lookup: probe the stored keys in
order, propagating a comparison error. -/
def lookupKeyE : List (VT × VT) → VT → Except PyErr (Option VT)
  | [], _ => .ok none
  | (k0, v0) :: rest, k =>
      match htEqProbe k0 k with
      | .error e => .error e
      | .ok true => .ok (some v0)
      | .ok false => lookupKeyE rest k

/-- Faithful model of the membership test `k in self.items`. -/
def containsKeyE (l : List (VT × VT)) (k : VT) : Except PyErr Bool :=
  match lookupKeyE l k with
  | .error e => .error e
  | .ok o => .ok o.isSome

/-- Faithful model of `self.items[k] = v` on the ordered map. -/
def setPairE : List (VT × VT) → VT → VT → Except PyErr (List (VT × VT))
  | [], k, v => .ok [(k, v)]
  | (k0, v0) :: rest, k, v =>
      match htEqProbe k0 k with
      | .error e => .error e
      | .ok true => .ok ((k0, v) :: rest)
      | .ok false =>
          match setPairE rest k v with
          | .error e => .error e
          | .ok rest' => .ok ((k0, v0) :: rest')

/-- Faithful model of `self.items.pop(k)` (`ok none` = key absent; Python
raises `KeyError` at the call site). -/
def popPairE : List (VT × VT) → VT → Except PyErr (Option (VT × List (VT × VT)))
  | [], _ => .ok none
  | (k0, v0) :: rest, k =>
      match htEqProbe k0 k with
      | .error e => .error e
      | .ok true => .ok (some (v0, rest))
      | .ok false =>
          match popPairE rest k with
          | .error e => .error e
          | .ok none => .ok none
          | .ok (some r) => .ok (some (r.1, (k0, v0) :: r.2))

/-- Faithful counterpart of `dictCallMethod`: same branches of
`ConstDictVariable.call_method`, with the guard conditions evaluated in
source order and every key comparison propagating the broken `__eq__`.  In
particular, for `pop` the membership probe of the absent-with-default
branch (`Hashable(args[0]) not in self.items`) runs before that branch's
arity test, so it can raise even for a one-argument `pop`. -/
def dictCallMethodE (d : ConstDict) (name : String) (args : List VT) :
    Except PyErr CallResult :=
  if name = "__getitem__" then
    match args with
    | a :: _ =>
        if is_hashable a then
          match lookupKeyE d.items (wrapKey a) with
          | .error e => .error e
          | .ok (some v) => .ok ⟨.v v, none⟩
          | .ok none => .error .keyError
        else .error .assertionError
    | [] => .error .indexError
  else if name = "__len__" then
    match args with
    | [] => .ok ⟨.v (.const (.vint d.items.length)), none⟩
    | _ => .error .assertionError
  else if name = "__setitem__" then
    match args with
    | [k, v] =>
        if is_hashable k && d.mutable_local then
          match setPairE d.items (wrapKey k) v with
          | .error e => .error e
          | .ok items' =>
              .ok ⟨.d { d with items := items' },
                   some (d, { d with items := items' })⟩
        else .error .unimplemented
    | k :: _ =>
        if is_hashable k && d.mutable_local then .error .assertionError
        else .error .unimplemented
    | [] => .error .unimplemented
  else if name = "pop" then
    match args with
    | [k] =>
        if is_hashable k then
          match containsKeyE d.items (wrapKey k) with
          | .error e => .error e
          | .ok _ =>
              if d.mutable_local then
                match popPairE d.items (wrapKey k) with
                | .error e => .error e
                | .ok (some r) => .ok ⟨.v r.1, some (d, { d with items := r.2 })⟩
                | .ok none => .error .keyError
              else .error .unimplemented
        else .error .unimplemented
    | [k, dflt] =>
        if is_hashable k then
          match containsKeyE d.items (wrapKey k) with
          | .error e => .error e
          | .ok b =>
              if !b then .ok ⟨.v dflt, none⟩
              else if d.mutable_local then
                match popPairE d.items (wrapKey k) with
                | .error e => .error e
                | .ok (some r) => .ok ⟨.v r.1, some (d, { d with items := r.2 })⟩
                | .ok none => .error .keyError
              else .error .unimplemented
        else .error .unimplemented
    | _ => .error .unimplemented
  else if name = "__contains__" then
    match args with
    | k :: _ =>
        if is_hashable k then
          match containsKeyE d.items (wrapKey k) with
          | .error e => .error e
          | .ok b => .ok ⟨.v (.const (.vbool b)), none⟩
        else .ok ⟨.v (.const (.vbool false)), none⟩
    | [] => .error .unimplemented
  else .error .unimplemented

/-- Faithful counterpart of `ddGetItem`: the membership test
`if k in self.items` and the subsequent lookup/binding propagate the broken
`__eq__`. -/
def ddGetItemE (dd : DefaultDict) (k : VT) (freshVal : VT) :
    Except PyErr DDResult :=
  if is_hashable k then
    match containsKeyE dd.toDict.items (wrapKey k) with
    | .error e => .error e
    | .ok true =>
        match lookupKeyE dd.toDict.items (wrapKey k) with
        | .error e => .error e
        | .ok (some v) => .ok ⟨v, none, 0⟩
        | .ok none => .error .keyError
    | .ok false =>
        if dd.hasFactory then
          match setPairE dd.toDict.items (wrapKey k) freshVal with
          | .error e => .error e
          | .ok items' =>
              .ok ⟨freshVal,
                   some (dd, { dd with toDict := { dd.toDict with items := items' } }),
                   1⟩
        else .error .keyError
  else .error .assertionError

/-- Faithful counterpart of `setCallMethod`: the rewritten `add` and the
argumentless `pop` route through `dictCallMethodE`. -/
def setCallMethodE (s : ConstDict) (name : String) (args : List VT) :
    Except PyErr CallResult :=
  if name = "add" then
    match args with
    | [x] => dictCallMethodE s "__setitem__" [x, set_default_value]
    | _ => .error .assertionError
  else if name = "pop" then
    match args with
    | [] =>
        match s.items.head? with
        | none => .error .keyError
        | some kv =>
            match dictCallMethodE s "pop" [kv.1] with
            | .ok r => .ok ⟨.v kv.1, r.replaced⟩
            | .error e => .error e
    | _ => .error .assertionError
  else if name = "__getitem__" then
    match args with
    | a :: _ => setGetitemConst a
    | [] => .error .indexError
  else dictCallMethodE s name args

/-! ## Operation sequences (used by the invariant claim) -/

/-- A guest mutation on the container: `d[k] = v` or `d.pop(k)`. -/
inductive DOp where
  | setI (k v : VT)
  | popK (k : VT)

/-- One traced operation routed through `call_method` (intended-equality
layer; faithful counterpart: `stepDictE`): when the operation performed a
copy-on-write substitution the interpreter continues with the new
snapshot; an operation that raised or was refused leaves the container
snapshot as it was — so these transitions over-approximate the program's
successful mutations. -/
def stepDict (d : ConstDict) : DOp → ConstDict
  | .setI k v =>
      match dictCallMethod d "__setitem__" [k, v] with
      | .ok r =>
          match r.replaced with
          | some p => p.2
          | none => d
      | .error _ => d
  | .popK k =>
      match dictCallMethod d "pop" [k] with
      | .ok r =>
          match r.replaced with
          | some p => p.2
          | none => d
      | .error _ => d

def runOps (d : ConstDict) (ops : List DOp) : ConstDict :=
  ops.foldl stepDict d

/-- Faithful counterpart of `stepDict`: one traced operation through
`dictCallMethodE`; a raised exception aborts the trace (the interpreter
falls back), so it propagates instead of being collapsed into a no-op. -/
def stepDictE (d : ConstDict) : DOp → Except PyErr ConstDict
  | .setI k v =>
      match dictCallMethodE d "__setitem__" [k, v] with
      | .ok r => .ok ((r.replaced.map Prod.snd).getD d)
      | .error e => .error e
  | .popK k =>
      match dictCallMethodE d "pop" [k] with
      | .ok r => .ok ((r.replaced.map Prod.snd).getD d)
      | .error e => .error e

/-- Faithful counterpart of `runOps`: the first raised exception aborts the
whole sequence. -/
def runOpsE : ConstDict → List DOp → Except PyErr ConstDict
  | d, [] => .ok d
  | d, op :: ops =>
      match stepDictE d op with
      | .ok d' => runOpsE d' ops
      | .error e => .error e

/-! ## Concrete inputs for the defect claims -/

/-- The tuple key `(1,)`: a `TupleVariable` holding `ConstantVariable(1)`;
hashable-compatible, with a non-empty tuple projection. -/
def tupleKey1 : VT := .tup [.const (.vint 1)]

/-- A mutable dict `{(1,): 10}` holding the tuple key. -/
def tupleDict : ConstDict :=
  { items := [(tupleKey1, .const (.vint 10))], user_cls := "dict",
    mutable_local := true }

/-- A mutable dict `{1: 10}` with an int key. -/
def intDict : ConstDict :=
  { items := [(VT.const (.vint 1), VT.const (.vint 10))], user_cls := "dict",
    mutable_local := true }

/-- A mutable empty dict. -/
def emptyMutDict : ConstDict :=
  { items := [], user_cls := "dict", mutable_local := true }

/-- The singleton set `{(1,)}`. -/
def tupleSingletonSet : ConstDict :=
  { items := [(tupleKey1, set_default_value)], user_cls := "set",
    mutable_local := true }

/-- The singleton set `{5}`. -/
def intSingletonSet : ConstDict :=
  { items := [(VT.const (.vint 5), set_default_value)], user_cls := "set",
    mutable_local := true }

/-- The empty set. -/
def emptySetDict : ConstDict :=
  { items := [], user_cls := "set", mutable_local := true }

/-- An empty `defaultdict` with a factory. -/
def emptyDefaultDict : DefaultDict :=
  ⟨{ items := [], user_cls := "defaultdict", mutable_local := true }, true⟩

/-- The `defaultdict` after the first defaulting lookup of `(1,)` bound the
fresh empty-list value. -/
def tupleBoundDefaultDict : DefaultDict :=
  ⟨{ items := [(tupleKey1, VT.listVT [])], user_cls := "defaultdict",
     mutable_local := true }, true⟩

/-- The `defaultdict` after the first defaulting lookup of `1` bound the
fresh empty-list value. -/
def intBoundDefaultDict : DefaultDict :=
  ⟨{ items := [(VT.const (.vint 1), VT.listVT [])], user_cls := "defaultdict",
     mutable_local := true }, true⟩

/-! ## Theorems -/

mutual

theorem pyValEq_refl : ∀ a, pyValEq a a = true
  | .vint _ => by simp [pyValEq]
  | .vbool _ => by simp [pyValEq]
  | .vstr _ => by simp [pyValEq]
  | .vnone => by simp [pyValEq]
  | .fake _ => by simp [pyValEq]
  | .obj _ => by simp [pyValEq]
  | .vtuple xs => by
      simp only [pyValEq]
      exact pyValEqList_refl xs

theorem pyValEqList_refl : ∀ xs, pyValEqList xs xs = true
  | [] => rfl
  | x :: xs => by
      simp only [pyValEqList, Bool.and_eq_true]
      exact ⟨pyValEq_refl x, pyValEqList_refl xs⟩

end

/-! ## Branch-selection lemmas for `call_method` -/

theorem dictCallMethod_setitem (d : ConstDict) (k v : VT) :
    dictCallMethod d "__setitem__" [k, v] =
      (if is_hashable k && d.mutable_local then
        .ok ⟨.d { d with items := setPair d.items (wrapKey k) v },
             some (d, { d with items := setPair d.items (wrapKey k) v })⟩
      else .error .unimplemented) := rfl

theorem dictCallMethod_pop1 (d : ConstDict) (k : VT) :
    dictCallMethod d "pop" [k] =
      (if is_hashable k && d.mutable_local then
        match popPair d.items (wrapKey k) with
        | some r => .ok ⟨.v r.1, some (d, { d with items := r.2 })⟩
        | none => .error .keyError
      else .error .unimplemented) := rfl

theorem stepDict_setI (d : ConstDict) (k v : VT)
    (hk : is_hashable k = true) (h : d.mutable_local = true) :
    stepDict d (.setI k v) = { d with items := setPair d.items (wrapKey k) v } := by
  simp [stepDict, dictCallMethod_setitem, hk, h]

theorem stepDict_setI_refused (d : ConstDict) (k v : VT)
    (hk : is_hashable k = false) :
    stepDict d (.setI k v) = d := by
  simp [stepDict, dictCallMethod_setitem, hk]

theorem stepDict_popK_some (d : ConstDict) (k : VT) (r : VT × List (VT × VT))
    (hk : is_hashable k = true) (h : d.mutable_local = true)
    (hp : popPair d.items (wrapKey k) = some r) :
    stepDict d (.popK k) = { d with items := r.2 } := by
  simp [stepDict, dictCallMethod_pop1, hk, h, hp]

theorem stepDict_popK_none (d : ConstDict) (k : VT)
    (hk : is_hashable k = true) (h : d.mutable_local = true)
    (hp : popPair d.items (wrapKey k) = none) :
    stepDict d (.popK k) = d := by
  simp [stepDict, dictCallMethod_pop1, hk, h, hp]

theorem stepDict_popK_refused (d : ConstDict) (k : VT)
    (hk : is_hashable k = false) :
    stepDict d (.popK k) = d := by
  simp [stepDict, dictCallMethod_pop1, hk]

/-- C8 claim: indexed access on a `SetVariable` is illegal for every key
argument: the `__getitem__` dispatch reaches the overridden
`getitem_const`, which raises `RuntimeError` unconditionally instead of
returning a value. -/
theorem set_getitem_illegal (s : ConstDict) (arg : VT) (rest : List VT) :
    setCallMethod s "__getitem__" (arg :: rest) = .error .runtimeError := rfl

/-! ## Record-adapter reconstruction (claim C9) -/

theorem all_not_positional_loadVal (fields : List (String × VT)) :
    (fields.map (fun nv => Instr.loadVal nv.2)).all
      (fun i => !isPositionalBuild i) = true := by
  induction fields with
  | nil => rfl
  | cons hd tl ih =>
      simp only [List.map_cons, List.all_cons, ih, Bool.and_true]
      rfl

theorem map_loadVal_wrap (fields : List (String × VT)) :
    (fields.map (fun nv => (VT.const (.vstr nv.1), nv.2))).map
        (fun kv => Instr.loadVal kv.2) =
      fields.map (fun nv => Instr.loadVal nv.2) := by
  induction fields with
  | nil => rfl
  | cons hd tl ih => simp [ih]

theorem map_keyStr_wrap (fields : List (String × VT)) :
    (fields.map (fun nv => (VT.const (.vstr nv.1), nv.2))).map
        (fun kv => keyStr kv.1) =
      fields.map Prod.fst := by
  induction fields with
  | nil => rfl
  | cons hd tl ih => simp [keyStr, ih]

/-- C9 claim: for both record adapters, `reconstruct()` emits: load the record
type, build the stored field values in declared (stored) order, then one
keyword-based construction call whose keyword tags are exactly the stored
field names; the emission contains no `BUILD_MAP` and no plain
(positional) call — never a positional build followed by a conversion
call. -/
theorem record_adapter_reconstruct_kw
    (d : ConstDict) (fields : List (String × VT))
    (hitems : d.items = fields.map (fun nv => (VT.const (.vstr nv.1), nv.2))) :
    dataClassReconstruct d =
      Instr.loadConst d.user_cls ::
      (fields.map (fun nv => Instr.loadVal nv.2) ++
       [Instr.callFunctionKw fields.length (fields.map Prod.fst)]) ∧
    customizedDictReconstruct d = dataClassReconstruct d ∧
    (dataClassReconstruct d).all (fun i => !isPositionalBuild i) = true ∧
    (customizedDictReconstruct d).all (fun i => !isPositionalBuild i) = true := by
  have hmain : dataClassReconstruct d =
      Instr.loadConst d.user_cls ::
      (fields.map (fun nv => Instr.loadVal nv.2) ++
       [Instr.callFunctionKw fields.length (fields.map Prod.fst)]) := by
    simp only [dataClassReconstruct, hitems, map_loadVal_wrap, map_keyStr_wrap,
      List.length_map]
  have hsame : customizedDictReconstruct d = dataClassReconstruct d := rfl
  refine ⟨hmain, hsame, ?_, ?_⟩
  · rw [hmain]
    simp only [List.all_cons, List.all_append]
    rw [all_not_positional_loadVal]
    rfl
  · rw [hsame, hmain]
    simp only [List.all_cons, List.all_append]
    rw [all_not_positional_loadVal]
    rfl

/-- Witness for C9: a two-field record `MyOutput(a=1, b=t)` with a tensor in
the second field. -/
theorem record_adapter_reconstruct_kw_witness :
    ({ items := [(VT.const (.vstr "a"), VT.const (.vint 1)),
                 (VT.const (.vstr "b"), VT.tensor 7)],
       user_cls := "MyOutput", mutable_local := true } : ConstDict).items =
      ([("a", VT.const (.vint 1)), ("b", VT.tensor 7)].map
        (fun nv => (VT.const (.vstr nv.1), nv.2))) ∧
    dataClassReconstruct
      { items := [(VT.const (.vstr "a"), VT.const (.vint 1)),
                  (VT.const (.vstr "b"), VT.tensor 7)],
        user_cls := "MyOutput", mutable_local := true } =
      [Instr.loadConst "MyOutput", Instr.loadVal (VT.const (.vint 1)),
       Instr.loadVal (VT.tensor 7), Instr.callFunctionKw 2 ["a", "b"]] :=
  ⟨rfl,
   (record_adapter_reconstruct_kw
      { items := [(VT.const (.vstr "a"), VT.const (.vint 1)),
                  (VT.const (.vstr "b"), VT.tensor 7)],
        user_cls := "MyOutput", mutable_local := true }
      [("a", VT.const (.vint 1)), ("b", VT.tensor 7)] rfl).1.trans (by rfl)⟩

/-! ## The `_HashableTracker.__eq__` defect (claim C2) -/

/-- C2 claim, refuted on the code (counterexample exhibiting the defect).
The specification says `wrap(k1) == wrap(k2)` iff the kinds match and the
underlying projections compare equal.  For the hashable-compatible key
`k = TupleVariable([ConstantVariable(1)])`, both wrappers have the same
dynamic kind and (intended-)equal projections — `pyValEq` on the
projections is `true` — yet the source's `__eq__` does not return `True`:
`_eq_impl`'s tuple branch refers to the bare name `_eq_impl` inside a
staticmethod, which is not defined in any enclosing scope, so comparing two
equal-length non-empty tuple keys raises `NameError`. -/
theorem hashable_tracker_eq_tuple_name_error :
    htEq (VT.tup [VT.const (.vint 1)]) (VT.tup [VT.const (.vint 1)]) =
      .error .nameError ∧
    pyValEq (underlying (VT.tup [VT.const (.vint 1)]))
      (underlying (VT.tup [VT.const (.vint 1)])) = true ∧
    is_hashable (VT.tup [VT.const (.vint 1)]) = true := by
  refine ⟨rfl, rfl, rfl⟩

/-- The tracker equality the source does implement on non-tuple keys, for
contrast: same-kind equal constants compare equal, distinct fake-tensor
objects of identical shape/dtype do not, mismatched kinds do not. -/
theorem hashable_tracker_eq_non_tuple_ok :
    htEq (VT.const (.vint 3)) (VT.const (.vint 3)) = .ok true ∧
    htEq (VT.tensor 1) (VT.tensor 2) = .ok false ∧
    htEq (VT.tensor 1) (VT.tensor 1) = .ok true ∧
    htEq (VT.const (.vint 1)) (VT.const (.vbool true)) = .ok false := by
  refine ⟨rfl, rfl, rfl, rfl⟩

/-! ## The `__contains__` dunder defect (claim C6) -/

/-- C6 claim, refuted on the code (counterexample exhibiting the defect).
The specification says `contains` returns `False` (rather than failing)
for a probe that is not hashable-compatible.  A raw Python list probe is
neither a literal nor a `VariableTracker`, so `__contains__` reaches its
`else` branch, whose `assert not is_hashable_python_var(x)` names an
undefined variable `x` (the parameter is `obj`): the probe raises
`NameError` instead of returning `False`.  The `call_method` path, by
contrast, does return a `False` constant for an unhashable tracker
probe. -/
theorem dunder_contains_raw_unhashable_name_error :
    dunderContains { items := [], user_cls := "dict", mutable_local := false }
      (.raw .rlist) = .error .nameError ∧
    is_hashable_python_var .rlist = false ∧
    dictCallMethod { items := [], user_cls := "dict", mutable_local := false }
      "__contains__" [VT.listVT []] =
      .ok ⟨.v (VT.const (.vbool false)), none⟩ := by
  refine ⟨rfl, rfl, rfl⟩

/-! ## The hashable-key invariant (claim C10) -/

theorem is_hashable_wrapKey (k : VT) (h : is_hashable k = true) :
    is_hashable (wrapKey k) = true := by
  cases k <;> first | rfl | exact h

theorem allKeys_setPair (l : List (VT × VT)) (k v : VT)
    (hl : l.all (fun kv => is_hashable kv.1) = true)
    (hk : is_hashable k = true) :
    (setPair l k v).all (fun kv => is_hashable kv.1) = true := by
  induction l with
  | nil => simp [setPair, hk]
  | cons hd tl ih =>
      obtain ⟨k0, v0⟩ := hd
      simp only [List.all_cons, Bool.and_eq_true] at hl
      by_cases he : keyEq k0 k = true
      · simp [setPair, he, hl.1, hl.2]
      · have he' : keyEq k0 k = false := by simpa using he
        simp [setPair, he', hl.1, ih hl.2]

theorem allKeys_popPair (l : List (VT × VT)) (k : VT) :
    ∀ r, popPair l k = some r →
      l.all (fun kv => is_hashable kv.1) = true →
      r.2.all (fun kv => is_hashable kv.1) = true := by
  induction l with
  | nil => intro r hp; cases hp
  | cons hd tl ih =>
      intro r hp hl
      obtain ⟨k0, v0⟩ := hd
      simp only [List.all_cons, Bool.and_eq_true] at hl
      by_cases he : keyEq k0 k = true
      · have h1 : popPair ((k0, v0) :: tl) k = some (v0, tl) := by
          simp [popPair, he]
        rw [h1] at hp
        cases Option.some.inj hp
        exact hl.2
      · have he' : keyEq k0 k = false := by simpa using he
        have h1 : popPair ((k0, v0) :: tl) k
            = (popPair tl k).map (fun r => (r.1, (k0, v0) :: r.2)) := by
          simp [popPair, he']
        rw [h1] at hp
        cases hq : popPair tl k with
        | none => rw [hq] at hp; cases hp
        | some r0 =>
            rw [hq] at hp
            cases Option.some.inj hp
            simp only [List.all_cons, Bool.and_eq_true]
            exact ⟨hl.1, ih r0 hq hl.2⟩

theorem allKeys_foldl_setPair (other : List (VT × VT)) :
    ∀ acc, other.all (fun kv => is_hashable kv.1) = true →
      acc.all (fun kv => is_hashable kv.1) = true →
      (other.foldl (fun a kv => setPair a kv.1 kv.2) acc).all
        (fun kv => is_hashable kv.1) = true := by
  induction other with
  | nil => intro acc _ hacc; exact hacc
  | cons hd tl ih =>
      intro acc hoth hacc
      simp only [List.all_cons, Bool.and_eq_true] at hoth
      exact ih _ hoth.2 (allKeys_setPair acc hd.1 hd.2 hacc hoth.1)

theorem allKeys_map_wrap (l : List (VT × VT))
    (h : l.all (fun kv => is_hashable (wrapKey kv.1)) = true) :
    (l.map (fun kv => (wrapKey kv.1, kv.2))).all
      (fun kv => is_hashable kv.1) = true := by
  induction l with
  | nil => rfl
  | cons hd tl ih =>
      simp only [List.all_cons, Bool.and_eq_true] at h
      simp only [List.map_cons, List.all_cons, Bool.and_eq_true]
      exact ⟨h.1, ih h.2⟩

theorem allKeysHashable_stepDict (d : ConstDict) (op : DOp)
    (hall : allKeysHashable d = true) :
    allKeysHashable (stepDict d op) = true := by
  cases op with
  | setI k v =>
      by_cases hk : is_hashable k = true
      · by_cases hm : d.mutable_local = true
        · rw [stepDict_setI d k v hk hm]
          exact allKeys_setPair d.items (wrapKey k) v hall (is_hashable_wrapKey k hk)
        · have hm' : d.mutable_local = false := by simpa using hm
          have : stepDict d (.setI k v) = d := by
            simp [stepDict, dictCallMethod_setitem, hm']
          rw [this]; exact hall
      · rw [stepDict_setI_refused d k v (by simpa using hk)]; exact hall
  | popK k =>
      by_cases hk : is_hashable k = true
      · by_cases hm : d.mutable_local = true
        · cases hp : popPair d.items (wrapKey k) with
          | none => rw [stepDict_popK_none d k hk hm hp]; exact hall
          | some r =>
              rw [stepDict_popK_some d k r hk hm hp]
              exact allKeys_popPair d.items (wrapKey k) r hp hall
        · have hm' : d.mutable_local = false := by simpa using hm
          have : stepDict d (.popK k) = d := by
            simp [stepDict, dictCallMethod_pop1, hm']
          rw [this]; exact hall
      · rw [stepDict_popK_refused d k (by simpa using hk)]; exact hall

/-- C10 claim: the hashable-key invariant: every key stored in a container
snapshot is hashable-compatible (it went through the `_HashableTracker`
constructor, which asserts `is_hashable` after specialization).  The
invariant is established by construction and preserved by every
key-inserting operation: arbitrary `setItem`/`pop` sequences through
`call_method`, `update`, the defaulting `__getitem__`, and `SetVariable`'s
`add`. -/
theorem hashable_key_invariant :
    (∀ (l : List (VT × VT)) (cls : String) (m : Bool) (d : ConstDict),
      mkConstDict l cls m = .ok d → allKeysHashable d = true) ∧
    (∀ (d : ConstDict) (ops : List DOp), allKeysHashable d = true →
      allKeysHashable (runOps d ops) = true) ∧
    (∀ (d other : ConstDict) (r : CallResult) (od nd : ConstDict),
      allKeysHashable d = true → allKeysHashable other = true →
      dictUpdate d other = .ok r → r.replaced = some (od, nd) →
      allKeysHashable nd = true) ∧
    (∀ (dd : DefaultDict) (k fresh : VT) (r : DDResult) (od nd : DefaultDict),
      allKeysHashable dd.toDict = true → ddGetItem dd k fresh = .ok r →
      r.replaced = some (od, nd) → allKeysHashable nd.toDict = true) ∧
    (∀ (s : ConstDict) (x : VT) (r : CallResult) (od nd : ConstDict),
      allKeysHashable s = true → setCallMethod s "add" [x] = .ok r →
      r.replaced = some (od, nd) → allKeysHashable nd = true) := by
  refine ⟨?_, ?_, ?_, ?_, ?_⟩
  · intro l cls m d hmk
    unfold mkConstDict at hmk
    by_cases hl : l.all (fun kv => is_hashable (wrapKey kv.1)) = true
    · rw [if_pos hl] at hmk
      cases Except.ok.inj hmk
      exact allKeys_map_wrap l hl
    · rw [if_neg hl] at hmk
      cases hmk
  · intro d ops hall
    induction ops generalizing d with
    | nil => exact hall
    | cons op ops ih => exact ih (stepDict d op) (allKeysHashable_stepDict d op hall)
  · intro d other r od nd hd hoth hcall hrep
    unfold dictUpdate at hcall
    by_cases hm : d.mutable_local = true
    · rw [if_pos hm] at hcall
      cases Except.ok.inj hcall
      cases Option.some.inj hrep
      exact allKeys_foldl_setPair other.items d.items hoth hd
    · rw [if_neg hm] at hcall
      cases hcall
  · intro dd k fresh r od nd hall hcall hrep
    unfold ddGetItem at hcall
    by_cases hk : is_hashable k = true
    · rw [if_pos hk] at hcall
      cases hl : lookupKey dd.toDict.items (wrapKey k) with
      | some v =>
          rw [hl] at hcall
          cases Except.ok.inj hcall
          cases hrep
      | none =>
          rw [hl] at hcall
          by_cases hf : dd.hasFactory = true
          · rw [if_pos hf] at hcall
            cases Except.ok.inj hcall
            cases Option.some.inj hrep
            exact allKeys_setPair dd.toDict.items (wrapKey k) fresh hall
              (is_hashable_wrapKey k hk)
          · rw [if_neg hf] at hcall
            cases hcall
    · rw [if_neg hk] at hcall
      cases hcall
  · intro s x r od nd hall hcall hrep
    have hadd : setCallMethod s "add" [x] =
        dictCallMethod s "__setitem__" [x, set_default_value] := rfl
    rw [hadd, dictCallMethod_setitem] at hcall
    by_cases hg : (is_hashable x && s.mutable_local) = true
    · rw [if_pos hg] at hcall
      cases Except.ok.inj hcall
      cases Option.some.inj hrep
      exact allKeys_setPair s.items (wrapKey x) set_default_value hall
        (is_hashable_wrapKey x (by exact (Bool.and_eq_true _ _).mp hg |>.1))
    · rw [if_neg hg] at hcall
      cases hcall

/-- Witness for C10: construct `{1: 10}` through `__init__` and run a
mutation sequence over it; the invariant holds at the end. -/
theorem hashable_key_invariant_witness :
    allKeysHashable
      { items := [(VT.const (.vint 1), VT.const (.vint 10))],
        user_cls := "dict", mutable_local := true } = true ∧
    allKeysHashable
      (runOps
        { items := [(VT.const (.vint 1), VT.const (.vint 10))],
          user_cls := "dict", mutable_local := true }
        [DOp.setI (VT.symnode 4) (VT.const (.vint 40)),
         DOp.popK (VT.const (.vint 1))]) = true :=
  ⟨rfl,
   hashable_key_invariant.2.1
     { items := [(VT.const (.vint 1), VT.const (.vint 10))],
       user_cls := "dict", mutable_local := true }
     [DOp.setI (VT.symnode 4) (VT.const (.vint 40)),
      DOp.popK (VT.const (.vint 1))] rfl⟩

/-! ## Downstream manifestations of the `__eq__` defect
(claims C1, C3, C4, C5, C7)

Each theorem below evaluates the faithful layer at a concrete failing
input: an operation the claim promises to succeed crashes with `NameError`
because the dict protocol compares two equal tuple keys through the broken
`_HashableTracker.__eq__` (dicts.py line 108, claim C2).  Each theorem
also evaluates the same operation on non-tuple keys, where the claimed
behaviour does hold — evidence that the claims state the code's intent and
only this slip breaks them. -/

/-- C1 claim at a failing input: running `d[(1,)] = 10; d.pop((1,))` from an
empty dict raises `NameError` in the pop's key probe, aborting the trace
with the key still present — the claim promises the popped key is excluded
from iteration.  On int keys the claimed insertion-order discipline holds:
from `{1: 10}`, `d[2] = 20; d[1] = 11; d.pop(1)` ends with entries
`[(2, 20)]` (overwrite kept position `1` before its pop, new key appended),
so iteration yields `[2]`. -/
theorem const_dict_iteration_tuple_key_name_error :
    runOpsE emptyMutDict
      [DOp.setI tupleKey1 (VT.const (.vint 10)), DOp.popK tupleKey1] =
      .error .nameError ∧
    runOpsE intDict
      [DOp.setI (VT.const (.vint 2)) (VT.const (.vint 20)),
       DOp.setI (VT.const (.vint 1)) (VT.const (.vint 11)),
       DOp.popK (VT.const (.vint 1))] =
      .ok { items := [(VT.const (.vint 2), VT.const (.vint 20))],
            user_cls := "dict", mutable_local := true } ∧
    unpack_var_sequence
      { items := [(VT.const (.vint 2), VT.const (.vint 20))],
        user_cls := "dict", mutable_local := true } = [VT.const (.vint 2)] := by
  refine ⟨rfl, rfl, rfl⟩

/-- C3 claim at a failing input: overwriting the present tuple key `(1,)`
raises `NameError` inside the copied map's `__setitem__`, so the promised
new snapshot is never built and `tx.replace_all` is never invoked — while
the same `setItem` on an int key follows the copy-on-write discipline: a
fresh snapshot built from the old entries, the untouched original handed to
the substitution service. -/
theorem const_dict_copy_on_write_tuple_name_error :
    dictCallMethodE tupleDict "__setitem__" [tupleKey1, VT.const (.vint 99)] =
      .error .nameError ∧
    dictCallMethodE intDict "__setitem__"
        [VT.const (.vint 1), VT.const (.vint 11)] =
      .ok ⟨.d { items := [(VT.const (.vint 1), VT.const (.vint 11))],
                user_cls := "dict", mutable_local := true },
           some (intDict,
                 { items := [(VT.const (.vint 1), VT.const (.vint 11))],
                   user_cls := "dict", mutable_local := true })⟩ := by
  refine ⟨rfl, rfl⟩

/-- C4 claim at a failing input: with the tuple key `(1,)` present —
`containsKey` under the intended projection equality is `true` — the
one-argument `pop((1,))` raises `NameError` in the membership probe instead
of removing the entry and returning the bound value.  On int keys all three
claimed behaviours hold: absent with no default raises `KeyError`, absent
with a default returns it without substitution, present removes through
`replace_all` and returns the old value. -/
theorem const_dict_pop_tuple_name_error :
    dictCallMethodE tupleDict "pop" [tupleKey1] = .error .nameError ∧
    containsKey tupleDict.items (wrapKey tupleKey1) = true ∧
    dictCallMethodE intDict "pop" [VT.const (.vint 2)] = .error .keyError ∧
    dictCallMethodE intDict "pop" [VT.const (.vint 2), VT.const (.vint 99)] =
      .ok ⟨.v (VT.const (.vint 99)), none⟩ ∧
    dictCallMethodE intDict "pop" [VT.const (.vint 1)] =
      .ok ⟨.v (VT.const (.vint 10)),
           some (intDict,
                 { items := [], user_cls := "dict", mutable_local := true })⟩ := by
  refine ⟨rfl, rfl, rfl, rfl, rfl⟩

/-- C5 claim at a failing input: on an empty `defaultdict` with a factory,
the first lookup of the tuple key `(1,)` does bind and return the fresh
product with one factory call — but the claimed second lookup never returns
the stored value: the membership test `k in self.items` compares two equal
tuple trackers and raises `NameError`.  On an int key both lookups behave
as claimed: bind-and-return, then the same stored value with zero factory
calls. -/
theorem default_dict_second_lookup_tuple_name_error :
    ddGetItemE emptyDefaultDict tupleKey1 (VT.listVT []) =
      .ok ⟨VT.listVT [], some (emptyDefaultDict, tupleBoundDefaultDict), 1⟩ ∧
    ddGetItemE tupleBoundDefaultDict tupleKey1 (VT.listVT [VT.const .vnone]) =
      .error .nameError ∧
    ddGetItemE emptyDefaultDict (VT.const (.vint 1)) (VT.listVT []) =
      .ok ⟨VT.listVT [], some (emptyDefaultDict, intBoundDefaultDict), 1⟩ ∧
    ddGetItemE intBoundDefaultDict (VT.const (.vint 1))
        (VT.listVT [VT.const .vnone]) =
      .ok ⟨VT.listVT [], none, 0⟩ := by
  refine ⟨rfl, rfl, rfl, rfl⟩

/-- C7 claim at a failing input: on the singleton set `{(1,)}`, `pop()`
picks the tuple element and re-wraps its `vt` for the dict `pop`, whose key
probe compares two equal tuple trackers and raises `NameError` instead of
removing the element and returning it.  On the non-tuple singleton `{5}`
the claimed behaviour holds (the element — not the sentinel — is returned
and the substituted snapshot is empty), and on the empty set
`set(self.items.keys()).pop()` raises `KeyError`. -/
theorem set_pop_tuple_name_error :
    setCallMethodE tupleSingletonSet "pop" [] = .error .nameError ∧
    setCallMethodE intSingletonSet "pop" [] =
      .ok ⟨.v (VT.const (.vint 5)),
           some (intSingletonSet,
                 { items := [], user_cls := "set", mutable_local := true })⟩ ∧
    setCallMethodE emptySetDict "pop" [] = .error .keyError := by
  refine ⟨rfl, rfl, rfl⟩

end DynamoDicts
